import Mathlib

/-!
Verification of the schema acquisition and caching subsystem of
traefik-validator (src/traefik_validator/utils.py, settings.py).

The Python code is shallowly embedded:
  * the filesystem is a map from path strings to file entries carrying a
    modification time and a string content;
  * the system clock is an explicit natural number of seconds;
  * the external collaborators (the json module, the yaml loader, the
    jsonschema matcher, urllib) are explicit parameters of the model,
    since the spec treats them as boundary collaborators;
  * Python exceptions become an explicit error type returned through
    Except; the Python class hierarchy facts that matter (JSONDecodeError
    and UnicodeDecodeError are subclasses of ValueError) are recorded by
    the predicate PyExc.is_ValueError;
  * hashlib.md5 is implemented in full (RFC 1321) over byte lists, with
    32-bit arithmetic carried out on Nat modulo 2^32.
-/

/-! ### MD5 (hashlib.md5(url.encode()).hexdigest() in _get_cache_path) -/

/-- Round constants of MD5: floor(2^32 * abs(sin(i+1))) for i = 0..63. -/
def md5K : List Nat :=
  [0xd76aa478, 0xe8c7b756, 0x242070db, 0xc1bdceee,
   0xf57c0faf, 0x4787c62a, 0xa8304613, 0xfd469501,
   0x698098d8, 0x8b44f7af, 0xffff5bb1, 0x895cd7be,
   0x6b901122, 0xfd987193, 0xa679438e, 0x49b40821,
   0xf61e2562, 0xc040b340, 0x265e5a51, 0xe9b6c7aa,
   0xd62f105d, 0x02441453, 0xd8a1e681, 0xe7d3fbc8,
   0x21e1cde6, 0xc33707d6, 0xf4d50d87, 0x455a14ed,
   0xa9e3e905, 0xfcefa3f8, 0x676f02d9, 0x8d2a4c8a,
   0xfffa3942, 0x8771f681, 0x6d9d6122, 0xfde5380c,
   0xa4beea44, 0x4bdecfa9, 0xf6bb4b60, 0xbebfbc70,
   0x289b7ec6, 0xeaa127fa, 0xd4ef3085, 0x04881d05,
   0xd9d4d039, 0xe6db99e5, 0x1fa27cf8, 0xc4ac5665,
   0xf4292244, 0x432aff97, 0xab9423a7, 0xfc93a039,
   0x655b59c3, 0x8f0ccc92, 0xffeff47d, 0x85845dd1,
   0x6fa87e4f, 0xfe2ce6e0, 0xa3014314, 0x4e0811a1,
   0xf7537e82, 0xbd3af235, 0x2ad7d2bb, 0xeb86d391]

/-- Per-round left-rotation amounts of MD5. -/
def md5S : List Nat :=
  [7, 12, 17, 22, 7, 12, 17, 22, 7, 12, 17, 22, 7, 12, 17, 22,
   5, 9, 14, 20, 5, 9, 14, 20, 5, 9, 14, 20, 5, 9, 14, 20,
   4, 11, 16, 23, 4, 11, 16, 23, 4, 11, 16, 23, 4, 11, 16, 23,
   6, 10, 15, 21, 6, 10, 15, 21, 6, 10, 15, 21, 6, 10, 15, 21]

/-- 2^32, the modulus of 32-bit machine arithmetic. -/
def w32 : Nat := 4294967296

/-- Left rotation of a 32-bit word by s bits. -/
def rotl32 (x s : Nat) : Nat :=
  (x * 2 ^ s + x / 2 ^ (32 - s)) % w32

/-- Little-endian byte decomposition of n into k bytes. -/
def natToLE : Nat → Nat → List Nat
  | 0, _ => []
  | k + 1, n => (n % 256) :: natToLE k (n / 256)

/-- Read a little-endian byte list as a number. -/
def leToNat (l : List Nat) : Nat :=
  l.foldr (fun b acc => b + 256 * acc) 0

/-- MD5 padding: append 0x80, zero bytes up to 56 mod 64, then the
64-bit little-endian bit length of the message. -/
def md5Pad (msg : List Nat) : List Nat :=
  let len := msg.length
  let zeros := (119 - len % 64) % 64
  msg ++ [0x80] ++ List.replicate zeros 0 ++ natToLE 8 ((8 * len) % 2 ^ 64)

/-- Split a byte list into 64-byte blocks (fuel-driven recursion; the
fuel is an upper bound on the number of blocks). -/
def md5ChunksAux : Nat → List Nat → List (List Nat)
  | 0, _ => []
  | fuel + 1, l => if l.isEmpty then [] else l.take 64 :: md5ChunksAux fuel (l.drop 64)

/-- Split a byte list into 64-byte blocks. -/
def md5Chunks (l : List Nat) : List (List Nat) := md5ChunksAux l.length l

/-- The g-th little-endian 32-bit word of a 64-byte block. -/
def md5Word (block : List Nat) (g : Nat) : Nat :=
  leToNat ((block.drop (4 * g)).take 4)

/-- Bitwise complement within 32 bits. -/
def md5Not32 (x : Nat) : Nat := x ^^^ (w32 - 1)

/-- One of the 64 MD5 rounds applied to the state (a, b, c, d). -/
def md5Round (block : List Nat) (st : Nat × Nat × Nat × Nat) (i : Nat) :
    Nat × Nat × Nat × Nat :=
  let (a, b, c, d) := st
  let (f, g) :=
    if i < 16 then ((b &&& c) ||| (md5Not32 b &&& d), i)
    else if i < 32 then ((d &&& b) ||| (md5Not32 d &&& c), (5 * i + 1) % 16)
    else if i < 48 then (b ^^^ c ^^^ d, (3 * i + 5) % 16)
    else (c ^^^ (b ||| md5Not32 d), (7 * i) % 16)
  let f2 := (f + a + md5K.getD i 0 + md5Word block g) % w32
  (d, (b + rotl32 f2 (md5S.getD i 0)) % w32, b, c)

/-- Process one 64-byte block, updating the running MD5 state. -/
def md5Block (st : Nat × Nat × Nat × Nat) (block : List Nat) :
    Nat × Nat × Nat × Nat :=
  let (a0, b0, c0, d0) := st
  let (a, b, c, d) := (List.range 64).foldl (md5Round block) (a0, b0, c0, d0)
  ((a0 + a) % w32, (b0 + b) % w32, (c0 + c) % w32, (d0 + d) % w32)

/-- MD5 digest (16 bytes) of a byte list. -/
def md5Bytes (msg : List Nat) : List Nat :=
  let (a, b, c, d) :=
    (md5Chunks (md5Pad msg)).foldl md5Block
      (0x67452301, 0xefcdab89, 0x98badcfe, 0x10325476)
  natToLE 4 a ++ natToLE 4 b ++ natToLE 4 c ++ natToLE 4 d

/-- Lower-case hexadecimal digit. -/
def hexDigit (n : Nat) : Char :=
  if n < 10 then Char.ofNat (48 + n) else Char.ofNat (87 + n)

/-- Two hexadecimal characters of one byte. -/
def byteHex (b : Nat) : List Char := [hexDigit (b / 16), hexDigit (b % 16)]

/-- UTF-8 encoding of one character (str.encode() in Python). -/
def utf8Char (c : Char) : List Nat :=
  let n := c.toNat
  if n < 0x80 then [n]
  else if n < 0x800 then [0xC0 + n / 64, 0x80 + n % 64]
  else if n < 0x10000 then [0xE0 + n / 4096, 0x80 + n / 64 % 64, 0x80 + n % 64]
  else [0xF0 + n / 262144, 0x80 + n / 4096 % 64, 0x80 + n / 64 % 64, 0x80 + n % 64]

/-- UTF-8 encoding of a string as a byte list. -/
def utf8Encode (s : String) : List Nat :=
  s.data.foldr (fun c acc => utf8Char c ++ acc) []

/-- hashlib.md5(s.encode()).hexdigest(): the 32-character lower-case
hexadecimal MD5 digest of the UTF-8 encoding of s. -/
def md5Hex (s : String) : String :=
  ⟨(md5Bytes (utf8Encode s)).foldr (fun b acc => byteHex b ++ acc) []⟩

/-! ### Data model: documents, exceptions, filesystem, clock -/

/-- In-memory structured documents, as produced by json.load / json.loads
and by yaml.safe_load (external collaborators in the spec's terms). -/
inductive Json where
  | null : Json
  | bool : Bool → Json
  | num : Int → Json
  | str : String → Json
  | arr : List Json → Json
  | obj : List (String × Json) → Json

/-- The Python exceptions observable in utils.py, as an explicit error
type.  jsonDecodeError models json.JSONDecodeError, unicodeDecodeError
models UnicodeDecodeError, jsonschemaValidationError models
jsonschema.exceptions.ValidationError (with its .message and .path),
and validationError models the repository's own utils.ValidationError. -/
inductive PyExc where
  | valueError : String → PyExc
  | jsonDecodeError : String → PyExc
  | unicodeDecodeError : String → PyExc
  | fileNotFoundError : String → PyExc
  | yamlError : String → PyExc
  | jsonschemaValidationError : String → List String → PyExc
  | validationError : String → PyExc

/-- Python class-hierarchy fact: an exception is (an instance of a
subclass of) ValueError.  In CPython, json.JSONDecodeError subclasses
ValueError, and UnicodeDecodeError subclasses UnicodeError which
subclasses ValueError; the repository's ValueError itself obviously
qualifies. -/
def PyExc.is_ValueError : PyExc → Bool
  | .valueError _ => true
  | .jsonDecodeError _ => true
  | .unicodeDecodeError _ => true
  | _ => false

/-- Whether an exception is a jsonschema.exceptions.ValidationError,
the only class caught inside Validator.validate. -/
def PyExc.is_jsonschema_error : PyExc → Bool
  | .jsonschemaValidationError _ _ => true
  | _ => false

/-- A file on durable storage: storage-reported modification time
(seconds) and content. -/
structure FileEntry where
  mtime : Nat
  content : String

/-- The filesystem, at file granularity: path → file, none if absent. -/
abbrev FS := String → Option FileEntry

/-- Filesystem plus the current clock reading (time.time(), seconds). -/
structure World where
  fs : FS
  now : Nat

/-- Outcome of urllib.request.urlopen(url) together with reading and
UTF-8-decoding the response body.  urlError covers every
urllib.error.URLError, including HTTPError (non-success status), which
subclasses URLError.  badUtf8 is a body that fails .decode, raising
UnicodeDecodeError.  body is the decoded response text. -/
inductive NetResult where
  | urlError : String → NetResult
  | badUtf8 : String → NetResult
  | body : String → NetResult

/-- The ambient environment of a SchemaDownloader: the home directory
(Path.home()), the json module's parse and serialize functions, and the
network behaviour of urlopen, all external collaborators. -/
structure Env where
  home : String
  loads : String → Option Json
  dumps : Json → String
  urlopen : String → NetResult

/-! ### settings.py -/

/-- settings.STATIC_CONFS_SCHEMA_URL. -/
def STATIC_CONFS_SCHEMA_URL : String :=
  "https://json.schemastore.org/traefik-v3.json"

/-- settings.DYNAMIC_CONFS_SCHEMA_URL. -/
def DYNAMIC_CONFS_SCHEMA_URL : String :=
  "https://json.schemastore.org/traefik-v3-file-provider.json"

/-! ### SchemaDownloader (utils.py lines 21-95) -/

/-- SchemaDownloader.CACHE_TTL = 86400 (24 hours in seconds). -/
def CACHE_TTL : Nat := 86400

/-- SchemaDownloader.CACHE_DIR = Path.home() / ".traefik-validator" / "cache". -/
def CACHE_DIR (home : String) : String :=
  home ++ "/.traefik-validator/cache"

/-- SchemaDownloader._get_cache_path: CACHE_DIR / (md5 hex digest of the
url + ".json"). -/
def get_cache_path (home : String) (url : String) : String :=
  CACHE_DIR home ++ "/" ++ md5Hex url ++ ".json"

/-- SchemaDownloader._is_cache_valid: false if the path does not exist,
otherwise time.time() - st_mtime < CACHE_TTL.  The subtraction is done
in Int, as Python's is exact (a file dated in the future gives a
negative age, which still compares below the TTL). -/
def is_cache_valid (w : World) (cache_path : String) : Bool :=
  match w.fs cache_path with
  | none => false
  | some e => decide ((w.now : Int) - (e.mtime : Int) < (CACHE_TTL : Int))

/-- open(p, 'r') followed by json.load(f): FileNotFoundError when the
path is absent, json.JSONDecodeError when the content does not parse. -/
def json_load_file (env : Env) (fs : FS) (p : String) : Except PyExc Json :=
  match fs p with
  | none => .error (.fileNotFoundError p)
  | some e =>
    match env.loads e.content with
    | some j => .ok j
    | none => .error (.jsonDecodeError e.content)

/-- open(p, 'w') followed by json.dump(schema, f): overwrites the entry
at p with the serialized document, stamped with the current time. -/
def cache_write (fs : FS) (now : Nat) (p : String) (content : String) : FS :=
  fun q => if q = p then some ⟨now, content⟩ else fs q

/-- SchemaDownloader.download_from_url: urlopen, read, utf-8-decode,
json.loads.  A URLError (including HTTPError) is caught and re-raised
as ValueError naming the url; a decode failure raises
UnicodeDecodeError; a parse failure raises json.JSONDecodeError. -/
def download_from_url (env : Env) (url : String) : Except PyExc Json :=
  match env.urlopen url with
  | .urlError e =>
    .error (.valueError ("Failed to download schema from " ++ url ++ ": " ++ e))
  | .badUtf8 m => .error (.unicodeDecodeError m)
  | .body s =>
    match env.loads s with
    | some j => .ok j
    | none => .error (.jsonDecodeError s)

/-- Result of one get_schema call: the returned document or raised
exception, the filesystem afterwards, and how many times the Fetcher
(download_from_url) was invoked. -/
structure GetSchemaResult where
  result : Except PyExc Json
  fs : FS
  fetchCount : Nat

/-- SchemaDownloader.get_schema (utils.py lines 59-87), verbatim policy:
check _is_cache_valid first and serve the parsed cache; else in offline
mode serve any existing entry or raise ValueError; else download once,
write the result to the cache path, and return it. -/
def get_schema (env : Env) (w : World) (url : String) (offline : Bool) :
    GetSchemaResult :=
  let cache_path := get_cache_path env.home url
  if is_cache_valid w cache_path then
    ⟨json_load_file env w.fs cache_path, w.fs, 0⟩
  else if offline then
    match w.fs cache_path with
    | some _ => ⟨json_load_file env w.fs cache_path, w.fs, 0⟩
    | none =>
      ⟨.error (.valueError ("No cached schema available for " ++ url ++
        " and offline mode is enabled. Run without --offline first to download schemas.")),
       w.fs, 0⟩
  else
    match download_from_url env url with
    | .error e => ⟨.error e, w.fs, 1⟩
    | .ok schema =>
      ⟨.ok schema, cache_write w.fs w.now cache_path (env.dumps schema), 1⟩

/-- SchemaDownloader.get_static_schema: pure delegation to get_schema
with the configured static url. -/
def get_static_schema (env : Env) (w : World) (offline : Bool) : GetSchemaResult :=
  get_schema env w STATIC_CONFS_SCHEMA_URL offline

/-- SchemaDownloader.get_dynamic_schema: pure delegation to get_schema
with the configured dynamic url. -/
def get_dynamic_schema (env : Env) (w : World) (offline : Bool) : GetSchemaResult :=
  get_schema env w DYNAMIC_CONFS_SCHEMA_URL offline

/-! ### Validator (utils.py lines 98-200) -/

/-- The two schema roles of the Validator. -/
inductive Role where
  | static : Role
  | dynamic : Role

/-- A Validator instance together with its collaborators: whether each
configuration file was provided, the offline flag, the yaml loader's
behaviour on each provided file, and the jsonschema matcher (none for
success, or the message and path of the structural error it raises). -/
structure VEnv where
  env : Env
  hasStaticFile : Bool
  hasDynamicFile : Bool
  offline : Bool
  load_yaml : Role → Except PyExc Json
  js_validate : Json → Json → Option (String × List String)

/-- Outcome of one role's validation attempt (_validate_static or
_validate_dynamic): raised exception or success, the filesystem after
the schema acquisition, and the number of Fetcher invocations. -/
structure RoleOutcome where
  result : Except PyExc Unit
  fs : FS
  fetchCount : Nat

/-- Validator._validate_static: return immediately when no static file
was provided; otherwise acquire the static schema (any acquisition
exception propagates), load the yaml, and run jsonschema.validate. -/
def validate_static (V : VEnv) (w : World) : RoleOutcome :=
  if V.hasStaticFile = false then ⟨.ok (), w.fs, 0⟩
  else
    let r := get_static_schema V.env w V.offline
    match r.result with
    | .error e => ⟨.error e, r.fs, r.fetchCount⟩
    | .ok schema_file =>
      match V.load_yaml Role.static with
      | .error e => ⟨.error e, r.fs, r.fetchCount⟩
      | .ok config_file =>
        match V.js_validate config_file schema_file with
        | some err => ⟨.error (.jsonschemaValidationError err.1 err.2), r.fs, r.fetchCount⟩
        | none => ⟨.ok (), r.fs, r.fetchCount⟩

/-- Validator._validate_dynamic: the dynamic-role twin of
_validate_static. -/
def validate_dynamic (V : VEnv) (w : World) : RoleOutcome :=
  if V.hasDynamicFile = false then ⟨.ok (), w.fs, 0⟩
  else
    let r := get_dynamic_schema V.env w V.offline
    match r.result with
    | .error e => ⟨.error e, r.fs, r.fetchCount⟩
    | .ok schema_file =>
      match V.load_yaml Role.dynamic with
      | .error e => ⟨.error e, r.fs, r.fetchCount⟩
      | .ok config_file =>
        match V.js_validate config_file schema_file with
        | some err => ⟨.error (.jsonschemaValidationError err.1 err.2), r.fs, r.fetchCount⟩
        | none => ⟨.ok (), r.fs, r.fetchCount⟩

/-- Observable outcome of Validator.validate: the raised exception or
normal return, whether each role's try-block was entered, the list of
collected (role, message, path) structural errors as appended by the
two except-branches, and the filesystem afterwards. -/
structure ValidateResult where
  result : Except PyExc Unit
  staticAttempted : Bool
  dynamicAttempted : Bool
  validation_errors : List (String × String × List String)
  fs : FS

/-- The tail of Validator.validate: raise ValidationError exactly when
the collected list is nonempty, else return None. -/
def validate_finish (errs : List (String × String × List String))
    (sA dA : Bool) (fs : FS) : ValidateResult :=
  if errs.isEmpty then ⟨.ok (), sA, dA, errs, fs⟩
  else ⟨.error (.validationError "Configuration validation failed"), sA, dA, errs, fs⟩

/-- The dynamic-file branch of Validator.validate: call
_validate_dynamic inside a try that catches only
jsonschema.exceptions.ValidationError (collected into the error list);
any other exception propagates out of validate immediately. -/
def validate_dynamic_phase (V : VEnv) (w : World)
    (errs : List (String × String × List String)) (sA : Bool) : ValidateResult :=
  if V.hasDynamicFile then
    let r := validate_dynamic V w
    match r.result with
    | .ok _ => validate_finish errs sA true r.fs
    | .error (.jsonschemaValidationError m p) =>
      validate_finish (errs ++ [("dynamic", m, p)]) sA true r.fs
    | .error e => ⟨.error e, sA, true, errs, r.fs⟩
  else validate_finish errs sA false w.fs

/-- Validator.validate (utils.py lines 123-159): try the static role
(collecting a structural error, propagating anything else), then the
dynamic role likewise, then raise the aggregate ValidationError if any
structural error was collected. -/
def validate (V : VEnv) (w : World) : ValidateResult :=
  if V.hasStaticFile then
    let r := validate_static V w
    match r.result with
    | .ok _ => validate_dynamic_phase V ⟨r.fs, w.now⟩ [] true
    | .error (.jsonschemaValidationError m p) =>
      validate_dynamic_phase V ⟨r.fs, w.now⟩ [("static", m, p)] true
    | .error e => ⟨.error e, true, false, [], r.fs⟩
  else validate_dynamic_phase V w [] false

/-- The result _validate_static or _validate_dynamic produces when its
role either succeeds (none) or fails with exactly one structural
error. -/
def roleResult : Option (String × List String) → Except PyExc Unit
  | none => .ok ()
  | some (m, p) => .error (.jsonschemaValidationError m p)

/-- The contribution of one role's outcome to the collected error list. -/
def errList (role : String) : Option (String × List String) →
    List (String × String × List String)
  | none => []
  | some (m, p) => [(role, m, p)]

/-! ### Concrete instances used by witnesses and counterexamples -/

/-- A json module for the examples: exactly the text "ok" parses, to the
empty object. -/
def exLoads : String → Option Json :=
  fun s => if s = "ok" then some (Json.obj []) else none

/-- An environment whose network always answers the parseable body "ok". -/
def exEnv : Env :=
  ⟨"/home/u", exLoads, fun _ => "ok", fun _ => NetResult.body "ok"⟩

/-- The same environment with an unreachable network. -/
def exEnvDown : Env :=
  ⟨"/home/u", exLoads, fun _ => "ok", fun _ => NetResult.urlError "unreachable"⟩

/-- A network failing exactly for the static schema url. -/
def exEnvStaticDown : Env :=
  ⟨"/home/u", exLoads, fun _ => "ok",
   fun u => if u = STATIC_CONFS_SCHEMA_URL then NetResult.urlError "unreachable"
            else NetResult.body "ok"⟩

/-- The empty filesystem at time 0. -/
def exWorldEmpty : World := ⟨fun _ => none, 0⟩

/-- A filesystem holding a fresh, parseable cache entry for url "u". -/
def exWorldFresh : World :=
  ⟨fun q => if q = get_cache_path "/home/u" "u" then some ⟨100, "ok"⟩ else none, 100⟩

/-- A filesystem holding a fresh but unparseable cache entry for "u". -/
def exWorldCorrupt : World :=
  ⟨fun q => if q = get_cache_path "/home/u" "u" then some ⟨100, "bad"⟩ else none, 100⟩

/-- A filesystem holding one file unrelated to any cache location. -/
def exWorldKeep : World :=
  ⟨fun q => if q = "keep" then some ⟨5, "ok"⟩ else none, 50⟩

/-- Both configuration files provided, the fetch for the static role
failing, everything else fine. -/
def exVAcq : VEnv :=
  ⟨exEnvStaticDown, true, true, false, fun _ => Except.ok (Json.obj []),
   fun _ _ => none⟩

/-- Both configuration files provided, the static document structurally
invalid, the dynamic document valid. -/
def exV7 : VEnv :=
  ⟨exEnv, true, true, false,
   fun r => match r with
     | Role.static => Except.ok (Json.str "bad")
     | Role.dynamic => Except.ok (Json.obj []),
   fun inst _ => match inst with
     | Json.str _ => some ("invalid", ["http"])
     | _ => none⟩

/-! ### Theorems -/

/-- Claim C2: _is_cache_valid never raises (it is embedded as a total
Boolean function of the state); it returns false when the location does
not exist on storage, and when an entry exists it returns true iff the
clock reading minus the entry's modification time is strictly below the
fixed TTL of 86400 seconds. -/
theorem is_cache_valid_spec (w : World) (p : String) :
    (w.fs p = none → is_cache_valid w p = false) ∧
    (∀ e : FileEntry, w.fs p = some e →
      (is_cache_valid w p = true ↔ (w.now : Int) - (e.mtime : Int) < 86400)) := by
  refine ⟨fun h => ?_, fun e h => ?_⟩
  · simp [is_cache_valid, h]
  · simp [is_cache_valid, h, CACHE_TTL]

/-- Witness for C2 at concrete states. -/
theorem is_cache_valid_spec_witness :
    is_cache_valid exWorldEmpty "p" = false ∧
    (is_cache_valid ⟨fun _ => some ⟨0, "ok"⟩, 100⟩ "p" = true ↔
      ((100 : Nat) : Int) - ((0 : Nat) : Int) < 86400) :=
  ⟨(is_cache_valid_spec exWorldEmpty "p").1 rfl,
   (is_cache_valid_spec ⟨fun _ => some ⟨0, "ok"⟩, 100⟩ "p").2 ⟨0, "ok"⟩ rfl⟩

/-- Claim C8: freshness monotonicity.  Immediately after the cache write
(the one get_schema performs after a successful fetch), the location is
fresh; once CACHE_TTL seconds have elapsed with no further write it is
stale; and the filesystem produced by get_schema's online fetch-success
path is fresh at the written location. -/
theorem cache_write_freshness :
    (∀ (fs : FS) (now : Nat) (p content : String),
      is_cache_valid ⟨cache_write fs now p content, now⟩ p = true) ∧
    (∀ (fs : FS) (now t : Nat) (p content : String), now + CACHE_TTL ≤ t →
      is_cache_valid ⟨cache_write fs now p content, t⟩ p = false) ∧
    (∀ (env : Env) (w : World) (url : String) (j : Json),
      is_cache_valid w (get_cache_path env.home url) = false →
      download_from_url env url = .ok j →
      is_cache_valid ⟨(get_schema env w url false).fs, w.now⟩
        (get_cache_path env.home url) = true) := by
  have h1 : ∀ (fs : FS) (now : Nat) (p content : String),
      is_cache_valid ⟨cache_write fs now p content, now⟩ p = true := by
    intro fs now p content
    have hfs : cache_write fs now p content p = some ⟨now, content⟩ := by
      simp [cache_write]
    simp only [is_cache_valid, hfs, decide_eq_true_eq, CACHE_TTL]
    omega
  refine ⟨h1, fun fs now t p content ht => ?_, fun env w url j hStale hOk => ?_⟩
  · have hfs : cache_write fs now p content p = some ⟨now, content⟩ := by
      simp [cache_write]
    simp only [is_cache_valid, hfs, decide_eq_false_iff_not, not_lt, CACHE_TTL]
    simp only [CACHE_TTL] at ht
    omega
  · have hw : (get_schema env w url false).fs =
        cache_write w.fs w.now (get_cache_path env.home url) (env.dumps j) := by
      simp [get_schema, hStale, hOk]
    rw [hw]
    exact h1 w.fs w.now (get_cache_path env.home url) (env.dumps j)

/-- Witness for C8 at a concrete write. -/
theorem cache_write_freshness_witness :
    is_cache_valid ⟨cache_write exWorldEmpty.fs 7 "p" "c", 7 + CACHE_TTL⟩ "p" = false :=
  cache_write_freshness.2.1 exWorldEmpty.fs 7 (7 + CACHE_TTL) "p" "c" (Nat.le_refl _)

/-- Claim C4: every failure mode of download_from_url — transport error
or non-success status (urllib raises URLError, of which HTTPError is a
subclass; the code re-raises it as ValueError), an undecodable body
(UnicodeDecodeError, a subclass of ValueError), or a body that does not
parse as JSON (json.JSONDecodeError, a subclass of ValueError) —
surfaces as the ValueError type and not as some other exception. -/
theorem download_from_url_error_is_value_error (env : Env) (url : String) (e : PyExc) :
    download_from_url env url = .error e → e.is_ValueError = true := by
  intro h
  unfold download_from_url at h
  cases hu : env.urlopen url <;> rw [hu] at h
  · simp only [Except.error.injEq] at h
    subst h; rfl
  · simp only [Except.error.injEq] at h
    subst h; rfl
  case body s =>
    cases hl : env.loads s
    · simp only [hl, Except.error.injEq] at h
      subst h; rfl
    · simp [hl] at h

/-- Witness for C4: the error produced by an unreachable host is a
ValueError. -/
theorem download_from_url_error_is_value_error_witness :
    PyExc.is_ValueError
      (.valueError ("Failed to download schema from " ++ "u" ++ ": " ++ "unreachable")) = true :=
  download_from_url_error_is_value_error exEnvDown "u"
    (.valueError ("Failed to download schema from " ++ "u" ++ ": " ++ "unreachable")) rfl

/-- Claim C5: in online mode with a missing or stale cache entry, a
Fetcher failure is propagated unchanged (no fallback to the stale
entry), the Fetcher is invoked exactly once, and the filesystem — in
particular any existing stale entry — is left untouched. -/
theorem get_schema_online_fetch_failure (env : Env) (w : World) (url : String) (e : PyExc)
    (hStale : is_cache_valid w (get_cache_path env.home url) = false)
    (hFail : download_from_url env url = .error e) :
    (get_schema env w url false).result = .error e ∧
    (get_schema env w url false).fetchCount = 1 ∧
    (get_schema env w url false).fs = w.fs := by
  simp [get_schema, hStale, hFail]

/-- Witness for C5 on an empty cache with an unreachable network. -/
theorem get_schema_online_fetch_failure_witness :
    (get_schema exEnvDown exWorldEmpty "u" false).result =
      .error (.valueError ("Failed to download schema from " ++ "u" ++ ": " ++ "unreachable")) ∧
    (get_schema exEnvDown exWorldEmpty "u" false).fetchCount = 1 ∧
    (get_schema exEnvDown exWorldEmpty "u" false).fs = exWorldEmpty.fs :=
  get_schema_online_fetch_failure exEnvDown exWorldEmpty "u"
    (.valueError ("Failed to download schema from " ++ "u" ++ ": " ++ "unreachable")) rfl rfl

set_option maxRecDepth 200000 in
/-- Claim C9: _get_cache_path is a pure function of the identifier (its
embedding performs no I/O by construction): it is deterministic across
calls and process restarts, its result always lies inside the fixed
cache root with the fixed ".json" extension, identifiers with distinct
digests get distinct locations (the residual collision probability is
exactly that of the MD5 digest), and in particular the two configured
schema identifiers map to distinct locations. -/
theorem get_cache_path_spec :
    (∀ home a, get_cache_path home a =
      CACHE_DIR home ++ "/" ++ md5Hex a ++ ".json") ∧
    (∀ home a b, a = b → get_cache_path home a = get_cache_path home b) ∧
    (∀ home a b, md5Hex a ≠ md5Hex b →
      get_cache_path home a ≠ get_cache_path home b) ∧
    (∀ home, get_cache_path home STATIC_CONFS_SCHEMA_URL ≠
      get_cache_path home DYNAMIC_CONFS_SCHEMA_URL) := by
  have key : ∀ home a b, md5Hex a ≠ md5Hex b →
      get_cache_path home a ≠ get_cache_path home b := by
    intro home a b hne heq
    apply hne
    have h2 := congrArg String.data heq
    simp only [get_cache_path, CACHE_DIR, String.data_append, List.append_assoc] at h2
    have h3 := List.append_cancel_left h2
    have h4 := List.append_cancel_left h3
    have h5 := List.append_cancel_left h4
    exact String.ext (List.append_cancel_right h5)
  exact ⟨fun home a => rfl, fun home a b h => by rw [h], key,
    fun home => key home _ _ (by decide)⟩

set_option maxRecDepth 200000 in
/-- Witness for C9 at concrete identifiers. -/
theorem get_cache_path_spec_witness :
    get_cache_path "/h" "a" = CACHE_DIR "/h" ++ "/" ++ md5Hex "a" ++ ".json" ∧
    get_cache_path "/h" "a" = get_cache_path "/h" "a" ∧
    get_cache_path "/h" "a" ≠ get_cache_path "/h" "b" :=
  ⟨get_cache_path_spec.1 "/h" "a",
   get_cache_path_spec.2.1 "/h" "a" "a" rfl,
   get_cache_path_spec.2.2.1 "/h" "a" "b" (by decide)⟩

/-- Claim C1: the first-match decision policy of get_schema.  Fresh
cache: return the parsed cached document, no fetch, no write.  Offline
with any existing entry: return the parsed (possibly stale) entry, no
fetch, no write.  Offline with no entry: raise the ValueError naming
the identifier and the remedy, no fetch, no write.  Online with a
missing or stale entry: exactly one fetch, and on success write the
document to the cache location and return it. -/
theorem get_schema_decision_policy (env : Env) (w : World) (url : String) (offline : Bool) :
    (∀ (e : FileEntry) (j : Json),
      is_cache_valid w (get_cache_path env.home url) = true →
      w.fs (get_cache_path env.home url) = some e →
      env.loads e.content = some j →
      (get_schema env w url offline).result = .ok j ∧
      (get_schema env w url offline).fetchCount = 0 ∧
      (get_schema env w url offline).fs = w.fs) ∧
    (∀ (e : FileEntry) (j : Json),
      is_cache_valid w (get_cache_path env.home url) = false →
      w.fs (get_cache_path env.home url) = some e →
      env.loads e.content = some j →
      (get_schema env w url true).result = .ok j ∧
      (get_schema env w url true).fetchCount = 0 ∧
      (get_schema env w url true).fs = w.fs) ∧
    (is_cache_valid w (get_cache_path env.home url) = false →
      w.fs (get_cache_path env.home url) = none →
      (get_schema env w url true).result = .error (.valueError
        ("No cached schema available for " ++ url ++
         " and offline mode is enabled. Run without --offline first to download schemas.")) ∧
      (get_schema env w url true).fetchCount = 0 ∧
      (get_schema env w url true).fs = w.fs) ∧
    (is_cache_valid w (get_cache_path env.home url) = false →
      (get_schema env w url false).fetchCount = 1 ∧
      (∀ j, download_from_url env url = .ok j →
        (get_schema env w url false).result = .ok j ∧
        (get_schema env w url false).fs =
          cache_write w.fs w.now (get_cache_path env.home url) (env.dumps j))) := by
  refine ⟨fun e j hF hE hL => ?_, fun e j hS hE hL => ?_, fun hS hN => ?_, fun hS => ?_⟩
  · simp [get_schema, hF, json_load_file, hE, hL]
  · simp [get_schema, hS, hE, json_load_file, hL]
  · simp [get_schema, hS, hN]
  · constructor
    · cases hd : download_from_url env url <;> simp [get_schema, hS, hd]
    · intro j hd
      simp [get_schema, hS, hd]

set_option maxRecDepth 200000 in
/-- Witness for C1: the fresh-cache branch on a concrete state. -/
theorem get_schema_decision_policy_witness :
    (get_schema exEnv exWorldFresh "u" false).result = .ok (Json.obj []) ∧
    (get_schema exEnv exWorldFresh "u" false).fetchCount = 0 :=
  have h := (get_schema_decision_policy exEnv exWorldFresh "u" false).1 ⟨100, "ok"⟩
    (Json.obj []) (by decide) (by simp [exWorldFresh, exEnv]) rfl
  ⟨h.1, h.2.1⟩

set_option maxRecDepth 200000 in
/-- Counterexample to claim C6: a cache entry that exists, is fresh, but
does not parse is NOT treated as absent in online mode.  On this
concrete state get_schema raises the JSON decode error, does not invoke
the Fetcher at all (no re-fetch), and thus does not return the document
the network would have served. -/
theorem get_schema_fresh_corrupt_counterexample :
    (get_schema exEnv exWorldCorrupt "u" false).result =
      .error (.jsonDecodeError "bad") ∧
    (get_schema exEnv exWorldCorrupt "u" false).fetchCount = 0 ∧
    ¬ (get_schema exEnv exWorldCorrupt "u" false).fetchCount = 1 := by
  have hF : is_cache_valid exWorldCorrupt (get_cache_path exEnv.home "u") = true := by
    decide
  have hE : exWorldCorrupt.fs (get_cache_path exEnv.home "u") = some ⟨100, "bad"⟩ := by
    simp [exWorldCorrupt, exEnv]
  have hB : exEnv.loads "bad" = none := rfl
  refine ⟨?_, ?_, ?_⟩
  · simp [get_schema, hF, json_load_file, hE, hB]
  · simp [get_schema, hF]
  · simp [get_schema, hF]

/-- Claim C6 as amended: a corrupt cache entry is not treated as
equivalent to "entry absent".  When the corrupt entry is fresh,
get_schema surfaces the decode error and never invokes the Fetcher,
for any offline flag; in offline mode an existing corrupt entry's
decode error is surfaced likewise; only when the entry is stale in
online mode does get_schema fetch — which it would do for any stale
entry, corrupt or not — and then it returns the fetched document. -/
theorem get_schema_corrupt_cache_behavior (env : Env) (w : World) (url : String)
    (e : FileEntry)
    (hE : w.fs (get_cache_path env.home url) = some e)
    (hBad : env.loads e.content = none) :
    (is_cache_valid w (get_cache_path env.home url) = true →
      ∀ offline, (get_schema env w url offline).result =
          .error (.jsonDecodeError e.content) ∧
        (get_schema env w url offline).fetchCount = 0) ∧
    ((get_schema env w url true).result = .error (.jsonDecodeError e.content) ∧
      (get_schema env w url true).fetchCount = 0) ∧
    (is_cache_valid w (get_cache_path env.home url) = false →
      (get_schema env w url false).fetchCount = 1 ∧
      (∀ j, download_from_url env url = .ok j →
        (get_schema env w url false).result = .ok j)) := by
  refine ⟨fun hF offline => ?_, ?_, fun hS => ?_⟩
  · simp [get_schema, hF, json_load_file, hE, hBad]
  · cases hF : is_cache_valid w (get_cache_path env.home url)
    · simp [get_schema, hF, hE, json_load_file, hBad]
    · simp [get_schema, hF, json_load_file, hE, hBad]
  · constructor
    · cases hd : download_from_url env url <;> simp [get_schema, hS, hd]
    · intro j hd
      simp [get_schema, hS, hd]

set_option maxRecDepth 200000 in
/-- Witness for the amended C6 on the concrete corrupt state. -/
theorem get_schema_corrupt_cache_behavior_witness :
    (get_schema exEnv exWorldCorrupt "u" true).result =
      .error (.jsonDecodeError "bad") ∧
    (get_schema exEnv exWorldCorrupt "u" true).fetchCount = 0 :=
  (get_schema_corrupt_cache_behavior exEnv exWorldCorrupt "u" ⟨100, "bad"⟩
    (by simp [exWorldCorrupt, exEnv]) rfl).2.1

/-- Claim C10: the frame of get_schema.  Every cache location other than
the one computed for the requested identifier is bit-for-bit unchanged;
no existing entry is ever deleted; the fresh-cache path performs no
cache write and no fetch (whatever the offline flag and whatever the
entry's content); both offline paths perform no cache write and no
fetch; and the entry at the computed location changes only through a
successful fetch — any modification implies the entry was not fresh,
the mode was online, the Fetcher ran exactly once and succeeded, and
the written content is precisely the document returned. -/
theorem get_schema_frame (env : Env) (w : World) (url : String) (offline : Bool) :
    (∀ p, p ≠ get_cache_path env.home url →
      (get_schema env w url offline).fs p = w.fs p) ∧
    (∀ (p : String) (e : FileEntry), w.fs p = some e →
      ∃ e2, (get_schema env w url offline).fs p = some e2) ∧
    (is_cache_valid w (get_cache_path env.home url) = true →
      (get_schema env w url offline).fs = w.fs ∧
      (get_schema env w url offline).fetchCount = 0) ∧
    (offline = true →
      (get_schema env w url offline).fs = w.fs ∧
      (get_schema env w url offline).fetchCount = 0) ∧
    ((get_schema env w url offline).fs (get_cache_path env.home url) =
        w.fs (get_cache_path env.home url) ∨
      (is_cache_valid w (get_cache_path env.home url) = false ∧ offline = false ∧
        (get_schema env w url offline).fetchCount = 1 ∧
        ∃ j, download_from_url env url = .ok j ∧
          (get_schema env w url offline).result = .ok j ∧
          (get_schema env w url offline).fs (get_cache_path env.home url) =
            some ⟨w.now, env.dumps j⟩)) := by
  have hcase :
      ((get_schema env w url offline).fs = w.fs ∧
       (get_schema env w url offline).fetchCount = 0 ∧
       (is_cache_valid w (get_cache_path env.home url) = true ∨ offline = true)) ∨
      (is_cache_valid w (get_cache_path env.home url) = false ∧ offline = false ∧
       (get_schema env w url offline).fetchCount = 1 ∧
       ((get_schema env w url offline).fs = w.fs ∨
        ∃ j, download_from_url env url = .ok j ∧
          (get_schema env w url offline).result = .ok j ∧
          (get_schema env w url offline).fs =
            cache_write w.fs w.now (get_cache_path env.home url) (env.dumps j))) := by
    by_cases hF : is_cache_valid w (get_cache_path env.home url) = true
    · left
      refine ⟨?_, ?_, Or.inl hF⟩ <;> simp [get_schema, hF]
    · simp only [Bool.not_eq_true] at hF
      cases offline
      · right
        refine ⟨hF, rfl, ?_, ?_⟩
        · cases hd : download_from_url env url <;> simp [get_schema, hF, hd]
        · cases hd : download_from_url env url with
          | error e => left; simp [get_schema, hF, hd]
          | ok j =>
            right
            refine ⟨j, rfl, ?_, ?_⟩ <;> simp [get_schema, hF, hd]
      · left
        refine ⟨?_, ?_, Or.inr rfl⟩ <;>
          cases hfse : w.fs (get_cache_path env.home url) <;>
            simp [get_schema, hF, hfse]
  refine ⟨fun p hp => ?_, fun p e he => ?_, fun hF => ?_, fun hoff => ?_, ?_⟩
  · rcases hcase with ⟨h, -, -⟩ | ⟨-, -, -, h | ⟨j, -, -, h⟩⟩
    · rw [h]
    · rw [h]
    · rw [h]; simp [cache_write, hp]
  · rcases hcase with ⟨h, -, -⟩ | ⟨-, -, -, h | ⟨j, -, -, h⟩⟩
    · exact ⟨e, by rw [h, he]⟩
    · exact ⟨e, by rw [h, he]⟩
    · rw [h]
      simp only [cache_write]
      by_cases hpc : p = get_cache_path env.home url
      · exact ⟨⟨w.now, env.dumps j⟩, by simp [hpc]⟩
      · exact ⟨e, by simp [hpc, he]⟩
  · rcases hcase with ⟨h1, h2, -⟩ | ⟨hf, -, -, -⟩
    · exact ⟨h1, h2⟩
    · simp [hF] at hf
  · rcases hcase with ⟨h1, h2, -⟩ | ⟨-, ho, -, -⟩
    · exact ⟨h1, h2⟩
    · simp [hoff] at ho
  · rcases hcase with ⟨h, -, -⟩ | ⟨hf, ho, hc, h | ⟨j, hd, hr, h⟩⟩
    · left; rw [h]
    · left; rw [h]
    · right
      exact ⟨hf, ho, hc, j, hd, hr, by rw [h]; simp [cache_write]⟩

set_option maxRecDepth 200000 in
/-- Witness for C10: a file at an unrelated location survives an online
fetch-and-write unchanged and is not deleted; a fresh cache entry is
served with no write and no fetch; an offline call performs no write
and no fetch. -/
theorem get_schema_frame_witness :
    (get_schema exEnv exWorldKeep "u" false).fs "keep" = exWorldKeep.fs "keep" ∧
    (∃ e2, (get_schema exEnv exWorldKeep "u" false).fs "keep" = some e2) ∧
    ((get_schema exEnv exWorldFresh "u" false).fs = exWorldFresh.fs ∧
     (get_schema exEnv exWorldFresh "u" false).fetchCount = 0) ∧
    ((get_schema exEnv exWorldEmpty "u" true).fs = exWorldEmpty.fs ∧
     (get_schema exEnv exWorldEmpty "u" true).fetchCount = 0) :=
  ⟨(get_schema_frame exEnv exWorldKeep "u" false).1 "keep" (by decide),
   (get_schema_frame exEnv exWorldKeep "u" false).2.1 "keep" ⟨5, "ok"⟩
     (by simp [exWorldKeep]),
   (get_schema_frame exEnv exWorldFresh "u" false).2.2.1 (by decide),
   (get_schema_frame exEnv exWorldEmpty "u" true).2.2.2.1 rfl⟩

set_option maxRecDepth 200000 in
/-- Counterexample to claim C3: with both configuration files provided
and the static schema fetch failing (an acquisition error, not a
structural one), Validator.validate propagates the error immediately —
the dynamic role's validation is never attempted, contradicting the
claim that the other role is still attempted. -/
theorem validate_acquisition_counterexample :
    (validate exVAcq exWorldEmpty).dynamicAttempted = false ∧
    (validate exVAcq exWorldEmpty).result = .error (.valueError
      ("Failed to download schema from " ++ STATIC_CONFS_SCHEMA_URL ++
       ": " ++ "unreachable")) := by
  exact ⟨rfl, rfl⟩

/-- Claim C3 as amended: acquisition errors are NOT confined to their
role.  Only jsonschema structural errors are caught inside validate;
any other exception (FetchError and OfflineNoCacheError are both
ValueError in this code) propagates out of validate at once.  Since the
static role is attempted first, an acquisition error there prevents the
dynamic role from being attempted at all; an acquisition error in the
dynamic role propagates after the static role has already been
attempted. -/
theorem validate_acquisition_error_aborts (V : VEnv) (w : World) :
    (∀ e : PyExc, V.hasStaticFile = true →
      (validate_static V w).result = .error e →
      e.is_jsonschema_error = false →
      (validate V w).result = .error e ∧
      (validate V w).staticAttempted = true ∧
      (validate V w).dynamicAttempted = false) ∧
    (∀ (e : PyExc) (sErr : Option (String × List String)),
      V.hasStaticFile = true → V.hasDynamicFile = true →
      (validate_static V w).result = roleResult sErr →
      (validate_dynamic V ⟨(validate_static V w).fs, w.now⟩).result = .error e →
      e.is_jsonschema_error = false →
      (validate V w).result = .error e ∧
      (validate V w).staticAttempted = true ∧
      (validate V w).dynamicAttempted = true) := by
  refine ⟨fun e hS hs hne => ?_, fun e sErr hS hD hs hd hne => ?_⟩
  · cases e <;> simp_all [validate, hS, PyExc.is_jsonschema_error]
  · rcases sErr with _ | ⟨m, p⟩ <;> cases e <;>
      simp_all [validate, validate_dynamic_phase, roleResult, PyExc.is_jsonschema_error]

/-- Witness for the amended C3 on the concrete failing-static state. -/
theorem validate_acquisition_error_aborts_witness :
    (validate exVAcq exWorldEmpty).result = .error (.valueError
      ("Failed to download schema from " ++ STATIC_CONFS_SCHEMA_URL ++
       ": " ++ "unreachable")) ∧
    (validate exVAcq exWorldEmpty).staticAttempted = true ∧
    (validate exVAcq exWorldEmpty).dynamicAttempted = false :=
  (validate_acquisition_error_aborts exVAcq exWorldEmpty).1
    (.valueError ("Failed to download schema from " ++ STATIC_CONFS_SCHEMA_URL ++
      ": " ++ "unreachable")) rfl rfl rfl

/-- Claim C7: structural validation failures are collected, not thrown.
When both roles are provided and each role either succeeds or raises a
jsonschema structural error, both roles are attempted (the dynamic one
even if the static one failed structurally), the collected list is the
concatenation of the role-wise failures, a single aggregate
ValidationError is raised afterwards iff some role failed, and no error
is raised when no role failed. -/
theorem validate_collects_structural (V : VEnv) (w : World)
    (sErr dErr : Option (String × List String))
    (hS : V.hasStaticFile = true) (hD : V.hasDynamicFile = true)
    (hs : (validate_static V w).result = roleResult sErr)
    (hd : (validate_dynamic V ⟨(validate_static V w).fs, w.now⟩).result = roleResult dErr) :
    (validate V w).staticAttempted = true ∧
    (validate V w).dynamicAttempted = true ∧
    (validate V w).validation_errors =
      errList "static" sErr ++ errList "dynamic" dErr ∧
    (sErr = none → dErr = none → (validate V w).result = .ok ()) ∧
    (¬ (sErr = none ∧ dErr = none) →
      (validate V w).result =
        .error (.validationError "Configuration validation failed")) := by
  rcases sErr with _ | ⟨m, p⟩ <;> rcases dErr with _ | ⟨m2, p2⟩ <;>
    simp_all [validate, validate_dynamic_phase, validate_finish, roleResult, errList]

set_option maxRecDepth 200000 in
/-- Witness for C7: static structurally invalid, dynamic valid — both
attempted, one aggregate failure raised. -/
theorem validate_collects_structural_witness :
    (validate exV7 exWorldEmpty).staticAttempted = true ∧
    (validate exV7 exWorldEmpty).dynamicAttempted = true ∧
    (validate exV7 exWorldEmpty).result =
      .error (.validationError "Configuration validation failed") :=
  have h := validate_collects_structural exV7 exWorldEmpty
    (some ("invalid", ["http"])) none rfl rfl rfl rfl
  ⟨h.1, h.2.1, h.2.2.2.2 (by simp)⟩
